import Mathlib

/-
Verification of the vtable demo program (src/src/main.c).

The program implements manual runtime polymorphism in C: a base struct
Figure holds a FigureVTable (one function pointer, draw); the concrete
structs Rect and Circle each begin with a Figure base followed by one int
field (perimeter, resp. radius).  Constructors rect_new and circle_new
allocate an object, store the integer, and copy the matching static vtable
into the instance by value.  call_stuff dispatches through the vtable of
its argument, and main builds one Rect(10) and one Circle(8) and draws
each, returning 0.

Embedding notes:
- Function pointers are embedded as the enumeration DrawFn of the draw
  implementations present in the program; deref_draw is the dereference.
- Rect and Circle share the memory layout (FigureVTable, int), so a
  Figure pointer to either object is embedded as a FigureObj carrying the
  vtable and the single int field that follows it; the downcasts
  (Rect*)self and (Circle*)self in draw_rect and draw_circle read that
  field as perimeter, resp. radius.
- The static variables rect_vtable and circle_vtable are mutable C
  statics, so functions that could read them take an explicit Globals
  record; init_globals is their initialised state.  call_stuff ignores its
  Globals argument because its body reads only the vtable stored inside
  the instance.
- printf with a trailing newline is embedded as emitting one line of
  output; a function body is embedded in state-passing style, returning
  the (unchanged, since the bodies contain no stores) receiver together
  with the list of lines it writes.
-/

namespace VTable

/-- The draw implementations a FigureVTable function pointer can hold. -/
inductive DrawFn where
  | rect
  | circle
deriving DecidableEq

/-- FigureVTable from the source: one function slot, draw. -/
structure FigureVTable where
  draw : DrawFn
deriving DecidableEq

/-- A heap object seen through a Figure pointer: the vtable prefix shared
by Rect and Circle, followed by the single int field (perimeter for Rect,
radius for Circle, at the same offset). -/
structure FigureObj where
  vtable : FigureVTable
  payload : Int
deriving DecidableEq

/-- draw_rect: downcasts self to Rect and prints one line with the
perimeter field; it performs no store, so the receiver is returned
unchanged. -/
def draw_rect (self : FigureObj) : FigureObj × List String :=
  (self, ["Drawing Rect with perimeter: " ++ toString self.payload])

/-- draw_circle: downcasts self to Circle and prints one line with the
radius field; it performs no store, so the receiver is returned
unchanged. -/
def draw_circle (self : FigureObj) : FigureObj × List String :=
  (self, ["Drawing Circle with radius: " ++ toString self.payload])

/-- Dereferencing a draw function pointer. -/
def deref_draw : DrawFn → FigureObj → FigureObj × List String
  | DrawFn.rect => draw_rect
  | DrawFn.circle => draw_circle

/-- Initial value of the static rect_vtable. -/
def rect_vtable : FigureVTable :=
  { draw := DrawFn.rect }

/-- Initial value of the static circle_vtable. -/
def circle_vtable : FigureVTable :=
  { draw := DrawFn.circle }

/-- The mutable static state of the program: the two static vtables. -/
structure Globals where
  rect_vtable : FigureVTable
  circle_vtable : FigureVTable

/-- The statics as initialised at program start. -/
def init_globals : Globals :=
  ⟨rect_vtable, circle_vtable⟩

/-- rect_new: allocates a Rect, stores the perimeter, copies the static
rect_vtable into the instance by value, and upcasts to Figure. -/
def rect_new (g : Globals) (perimeter : Int) : FigureObj :=
  { vtable := g.rect_vtable, payload := perimeter }

/-- circle_new: allocates a Circle, stores the radius, copies the static
circle_vtable into the instance by value, and upcasts to Figure. -/
def circle_new (g : Globals) (radius : Int) : FigureObj :=
  { vtable := g.circle_vtable, payload := radius }

/-- call_stuff: dispatches through the vtable stored in the instance.
The body reads no static, so the Globals argument is unused. -/
def call_stuff (g : Globals) (fig : FigureObj) : FigureObj × List String :=
  deref_draw fig.vtable.draw fig

/-- main: builds Rect(10), draws it, builds Circle(8), draws it, and
returns 0.  Embedded as the list of output lines paired with the exit
code. -/
def main : List String × Int :=
  let g := init_globals
  let rect := rect_new g 10
  let s1 := call_stuff g rect
  let circle := circle_new g 8
  let s2 := call_stuff g circle
  (s1.2 ++ s2.2, 0)

/-- Spec-side description of a heterogeneous construction sequence: which
variant, with which constructor argument. -/
inductive ShapeSpec where
  | rect (perimeter : Int)
  | circle (radius : Int)

/-- Build the instance a ShapeSpec describes, with the program statics. -/
def build : ShapeSpec → FigureObj
  | ShapeSpec.rect p => rect_new init_globals p
  | ShapeSpec.circle r => circle_new init_globals r

/-- Spec-side expected output line for each variant. -/
def expected_line : ShapeSpec → String
  | ShapeSpec.rect p => "Drawing Rect with perimeter: " ++ toString p
  | ShapeSpec.circle r => "Drawing Circle with radius: " ++ toString r

/-- The Rect output line and the Circle output line differ for all field
values: they disagree at character index 8. -/
theorem rect_line_ne_circle_line (p r : Int) :
    ("Drawing Rect with perimeter: " ++ toString p)
      ≠ ("Drawing Circle with radius: " ++ toString r) := by
  intro h
  have h8 := congrArg (fun u : String => u.data.get? 8) h
  simp at h8

/-- Claim C1: dispatch correctness.  For every heterogeneous sequence of
Shapes constructed by rect_new and circle_new, invoking draw through
call_stuff yields exactly the output of the draw implementation of the
actual variant of each element, element for element; moreover no Rect
instance ever produces a Circle output line or vice versa. -/
theorem dispatch_sequence_correct :
    (∀ specs : List ShapeSpec,
        specs.map (fun s => (call_stuff init_globals (build s)).2)
          = specs.map (fun s => [expected_line s]))
    ∧ (∀ p r : Int,
        (call_stuff init_globals (rect_new init_globals p)).2
          ≠ (call_stuff init_globals (circle_new init_globals r)).2) := by
  constructor
  · intro specs
    have hfun :
        (fun s => (call_stuff init_globals (build s)).2)
          = (fun s : ShapeSpec => [expected_line s]) := by
      funext s
      cases s <;> rfl
    rw [hfun]
  · intro p r h
    simp only [call_stuff, deref_draw, rect_new, circle_new, init_globals,
      rect_vtable, circle_vtable, draw_rect, draw_circle,
      List.cons.injEq, and_true] at h
    exact rect_line_ne_circle_line p r h

/-- Claim C2: for every integer p, drawing the instance rect_new p
through the common interface produces the single output line
"Drawing Rect with perimeter: p". -/
theorem rect_draw_output (p : Int) :
    (call_stuff init_globals (rect_new init_globals p)).2
      = ["Drawing Rect with perimeter: " ++ toString p] :=
  rfl

/-- Claim C3: for every integer r, drawing the instance circle_new r
through the common interface produces the single output line
"Drawing Circle with radius: r". -/
theorem circle_draw_output (r : Int) :
    (call_stuff init_globals (circle_new init_globals r)).2
      = ["Drawing Circle with radius: " ++ toString r] :=
  rfl

/-- Claim C4: main produces exactly two lines, in construction order,
first the Rect(10) line and then the Circle(8) line, and returns exit
code 0. -/
theorem main_two_lines_exit_zero :
    main = (["Drawing Rect with perimeter: 10",
             "Drawing Circle with radius: 8"], 0) :=
  rfl

/-- Repeated dispatch on an instance: the object state after n calls of
call_stuff. -/
def draw_n (g : Globals) : Nat → FigureObj → FigureObj
  | 0, fig => fig
  | n + 1, fig => draw_n g n (call_stuff g fig).1

theorem call_stuff_fst (g : Globals) (fig : FigureObj) :
    (call_stuff g fig).1 = fig := by
  cases h : fig.vtable.draw <;>
    simp [call_stuff, deref_draw, h, draw_rect, draw_circle]

theorem draw_n_eq_self (g : Globals) (n : Nat) (fig : FigureObj) :
    draw_n g n fig = fig := by
  induction n generalizing fig with
  | zero => rfl
  | succ n ih => rw [draw_n, call_stuff_fst, ih]

/-- Claim C5: variant-behavior pairing invariant.  However many times
draw has already been invoked on it, an instance produced by rect_new
still carries the function pointer of draw_rect and dispatches exactly to
draw_rect, and an instance produced by circle_new still carries the
function pointer of draw_circle and dispatches exactly to draw_circle. -/
theorem variant_pairing_invariant (p r : Int) (n : Nat) :
    (draw_n init_globals n (rect_new init_globals p)).vtable.draw
        = DrawFn.rect
    ∧ (draw_n init_globals n (circle_new init_globals r)).vtable.draw
        = DrawFn.circle
    ∧ call_stuff init_globals (draw_n init_globals n (rect_new init_globals p))
        = draw_rect (draw_n init_globals n (rect_new init_globals p))
    ∧ call_stuff init_globals (draw_n init_globals n (circle_new init_globals r))
        = draw_circle (draw_n init_globals n (circle_new init_globals r)) := by
  rw [draw_n_eq_self, draw_n_eq_self]
  exact ⟨rfl, rfl, rfl, rfl⟩

/-- Claim C6: draw is side-effect-free on the instance and idempotent in
output: dispatching draw leaves the instance unchanged, and a second
dispatch on the resulting instance produces the same output line. -/
theorem draw_frame_idempotent (g : Globals) (fig : FigureObj) :
    (call_stuff g fig).1 = fig
    ∧ (call_stuff g ((call_stuff g fig).1)).2 = (call_stuff g fig).2 := by
  refine ⟨call_stuff_fst g fig, ?_⟩
  rw [call_stuff_fst g fig]

/-- Claim C7: rect_new and circle_new are total on all integers, storing
the argument unvalidated, and draw renders the stored value verbatim,
including when it is zero or negative. -/
theorem constructors_permissive (p r : Int) :
    (rect_new init_globals p).payload = p
    ∧ (circle_new init_globals r).payload = r
    ∧ (call_stuff init_globals (rect_new init_globals p)).2
        = ["Drawing Rect with perimeter: " ++ toString p]
    ∧ (call_stuff init_globals (circle_new init_globals r)).2
        = ["Drawing Circle with radius: " ++ toString r] :=
  ⟨rfl, rfl, rfl, rfl⟩

/-- Claim C9: per-instance dispatch record by value.  A constructor
copies the whole static vtable into the new instance, and call_stuff
consults only that per-instance copy, so dispatch on an existing instance
is unchanged under any later state of the static vtables. -/
theorem per_instance_vtable_copy (g g2 : Globals) (p r : Int) :
    (rect_new g p).vtable = g.rect_vtable
    ∧ (circle_new g r).vtable = g.circle_vtable
    ∧ call_stuff g2 (rect_new g p) = call_stuff g (rect_new g p)
    ∧ call_stuff g2 (circle_new g r) = call_stuff g (circle_new g r) :=
  ⟨rfl, rfl, rfl, rfl⟩

/-- Claim C10: determinism of draw with respect to the stored state: the
output of dispatching draw depends only on the vtable and the stored
integer field of the receiver, so any two instances agreeing on both
produce identical output. -/
theorem draw_deterministic (g : Globals) (i j : FigureObj)
    (hv : i.vtable = j.vtable) (hf : i.payload = j.payload) :
    (call_stuff g i).2 = (call_stuff g j).2 := by
  cases i
  cases j
  cases hv
  cases hf
  rfl

/-- Witness for claim C10 at two concretely equal-state instances. -/
theorem draw_deterministic_witness :
    (call_stuff init_globals (rect_new init_globals 5)).2
      = (call_stuff init_globals
          { vtable := { draw := DrawFn.rect }, payload := 5 }).2 :=
  draw_deterministic init_globals (rect_new init_globals 5)
    { vtable := { draw := DrawFn.rect }, payload := 5 } rfl rfl

end VTable
